import Mathlib

/-!
# Verification of the whiteboard-photo preprocessing pipeline

Shallow embedding of the image preprocessing pipeline
(`src/preprocess.py`, function `preprocess_image`, the module imported by
`main.py` and `web/app.py`), of the image loader (`cv2.imread` plus the
`None` check), and of the Flask upload handler
(`web/app.py`, function `process_image`).

Images are modelled as a width, a height and a row-major pixel buffer
given as a total function from flat index to intensity.  The OpenCV
primitives the pipeline calls (colour conversion, Gaussian blur, CLAHE,
Otsu thresholding, Hough line detection, affine warp, area resize) are
external library routines, not code of this repository; they are
abstracted as the fields of a `CV` backend structure together with the
library contracts the pipeline relies on: an output image of
`cv2.resize` or `cv2.warpAffine` has exactly the requested size, and
`cv2.threshold` with `THRESH_BINARY` produces only the values 0 and
`maxval` (255 here).

`cv2.HoughLines` is called with angle resolution `np.pi / 180`, so every
detected angle is `theta = k * pi / 180` radians; a line candidate is
represented by the pair `(rho, theta * 180 / pi)`, i.e. its angle
measured in degrees, which makes the source expression
`theta * 180 / np.pi` exact rational arithmetic in this embedding.
-/

/-- A single-channel raster image: row-major buffer, index `y * width + x`. -/
structure GrayImage where
  width : Nat
  height : Nat
  data : Nat → Nat

/-- A 3-channel raster image as decoded by `cv2.imread` (BGR order). -/
structure ColorImage where
  width : Nat
  height : Nat
  data : Nat → Nat × Nat × Nat

/-- Border handling mode of `cv2.warpAffine`: a fixed fill value
(`BORDER_CONSTANT`, OpenCV's default) or edge replication
(`BORDER_REPLICATE`, what the source passes). -/
inductive BorderMode where
  | fixedColor (value : Nat)
  | replicate
deriving DecidableEq

/-- The OpenCV primitives used by `preprocess_image`, abstracted as a
backend, together with the documented library contracts the proofs rely
on.  `warpAffine` bundles `cv2.getRotationMatrix2D(center, angle, 1.0)`
followed by `cv2.warpAffine(img, M, dsize, borderMode=...)`, so it
records the center, the angle and the border mode the source passes. -/
structure CV where
  cvtColorGray : ColorImage → GrayImage
  gaussianBlur3 : GrayImage → GrayImage
  clahe : GrayImage → GrayImage
  thresholdOtsuBinary : GrayImage → GrayImage
  thresholdOtsuBinaryInv : GrayImage → GrayImage
  houghLines : GrayImage → Option (List (ℚ × ℚ))
  warpAffine : GrayImage → Nat × Nat → ℚ → Nat × Nat → BorderMode → GrayImage
  resizeArea : GrayImage → Nat → Nat → GrayImage
  warpAffine_width : ∀ i c a d m, (warpAffine i c a d m).width = d.1
  warpAffine_height : ∀ i c a d m, (warpAffine i c a d m).height = d.2
  resizeArea_width : ∀ i w h, (resizeArea i w h).width = w
  resizeArea_height : ∀ i w h, (resizeArea i w h).height = h
  thresholdOtsuBinary_binary :
    ∀ i n, (thresholdOtsuBinary i).data n = 0 ∨ (thresholdOtsuBinary i).data n = 255

/-- The angle-collecting loop of `preprocess_image`:
`for line in lines[:20]: ... angle = theta*180/pi - 90;
if abs(angle) < 45: angles.append(angle)` (the `lines[:20]` slice is
taken by the caller). -/
def collectAngles : List (ℚ × ℚ) → List ℚ
  | [] => []
  | l :: rest =>
    let angle := l.2 - 90
    if |angle| < 45 then angle :: collectAngles rest else collectAngles rest

/-- The skew estimate computed by `preprocess_image` from the result of
`cv2.HoughLines` (`none` models the `None` return): guard
`lines is not None and len(lines) > 0`, collect angles from the first 20
candidates, and average them with `np.mean` when any survive. -/
def skewEstimate (lines : Option (List (ℚ × ℚ))) : Option ℚ :=
  match lines with
  | none => none
  | some ls =>
    if 0 < ls.length then
      let angles := collectAngles (ls.take 20)
      if angles = [] then none
      else some (angles.sum / (angles.length : ℚ))
    else none

/-- Lines 43–57 of `src/preprocess.py`: grayscale conversion, 3×3
Gaussian blur, CLAHE, and — only in aggressive mode — Otsu binarization
of the enhanced image. -/
def enhance (cv : CV) (aggressive : Bool) (img : ColorImage) : GrayImage :=
  let gray := cv.cvtColorGray img
  let blurred := cv.gaussianBlur3 gray
  let enhanced := cv.clahe blurred
  if aggressive then cv.thresholdOtsuBinary enhanced else enhanced

/-- Lines 59–85 of `src/preprocess.py`: build a transient inverse-Otsu
binary proxy, detect lines with `cv2.HoughLines(temp_binary, 1,
np.pi/180, 200)`, average the filtered angles of the first 20 lines, and
rotate about the integer image center with `BORDER_REPLICATE` only when
`abs(avg_angle) > 1.0`. -/
def deskew (cv : CV) (enhanced : GrayImage) : GrayImage :=
  let temp_binary := cv.thresholdOtsuBinaryInv enhanced
  match cv.houghLines temp_binary with
  | none => enhanced
  | some ls =>
    if 0 < ls.length then
      let angles := collectAngles (ls.take 20)
      if angles = [] then enhanced
      else
        let avg_angle := angles.sum / (angles.length : ℚ)
        if 1 < |avg_angle| then
          let center := (enhanced.width / 2, enhanced.height / 2)
          cv.warpAffine enhanced center avg_angle (enhanced.width, enhanced.height)
            BorderMode.replicate
        else enhanced
    else enhanced

/-- Lines 87–99 of `src/preprocess.py`: shrink to width 800 with
`INTER_AREA` only when the image is wider, computing
`target_height = int(target_width * height / width)`; otherwise return
the carried image unchanged. -/
def resizeStage (cv : CV) (img : GrayImage) : GrayImage :=
  let target_width := 800
  if target_width < img.width then
    let target_height := target_width * img.height / img.width
    cv.resizeArea img target_width target_height
  else img

/-- The single error kind raised inside `preprocess_image`:
`raise ValueError(f"Could not read image from {input_path}")`. -/
inductive PyErr where
  | valueError (msg : String)
deriving DecidableEq

/-- Name of the Python exception class of an error value. -/
def PyErr.kind : PyErr → String
  | .valueError _ => "ValueError"

/-- `cv2.imread`: returns `None` (here `none`) both when the path names
no readable file and when the file's bytes cannot be decoded as a
supported raster format; the two failures are indistinguishable in its
result. -/
def imread (files : String → Option (List Nat)) (decode : List Nat → Option ColorImage)
    (path : String) : Option ColorImage :=
  (files path).bind decode

/-- The whole of `preprocess_image(input_path, output_path, aggressive)`
from `src/preprocess.py`.  `read` models `cv2.imread`; the result value
pairs the image handed to `cv2.imwrite(output_path, resized)` with the
function's return value (`return output_path`). -/
def preprocess_image (cv : CV) (read : String → Option ColorImage)
    (input_path output_path : String) (aggressive : Bool) :
    Except PyErr (GrayImage × String) :=
  match read input_path with
  | none => .error (.valueError ("Could not read image from " ++ input_path))
  | some img =>
    let enhanced := enhance cv aggressive img
    let deskewed := deskew cv enhanced
    let resized := resizeStage cv deskewed
    .ok (resized, output_path)

/-- Exception-class name of a pipeline failure, `none` on success. -/
def errKind : Except PyErr (GrayImage × String) → Option String
  | .error e => some e.kind
  | .ok _ => none

/-- The multiset of pixel values of an image. -/
def valuesOf (img : GrayImage) : List Nat :=
  (List.range (img.width * img.height)).map img.data

/-- An image is strictly binary when it contains at most two distinct
pixel values. -/
def isBinary (img : GrayImage) : Prop :=
  (valuesOf img).dedup.length ≤ 2

instance (img : GrayImage) : Decidable (isBinary img) := by
  unfold isBinary; infer_instance

/-- `cv2.getRotationMatrix2D((cx, cy), theta, 1.0)` with
`c = cos theta`, `s = sin theta` supplied as exact parameters (the
OpenCV formula with `alpha = scale*cos theta`, `beta = scale*sin theta`
and `scale = 1.0`): rows `[alpha, beta, (1-alpha)*cx - beta*cy]` and
`[-beta, alpha, beta*cx + (1-alpha)*cy]`. -/
def getRotationMatrix2D (cx cy c s : ℚ) : (ℚ × ℚ × ℚ) × (ℚ × ℚ × ℚ) :=
  ((c, s, (1 - c) * cx - s * cy), (-s, c, s * cx + (1 - c) * cy))

/-- Application of a 2×3 affine matrix to a point, as `cv2.warpAffine`
uses it to map source content to destination coordinates. -/
def applyAffine (M : (ℚ × ℚ × ℚ) × (ℚ × ℚ × ℚ)) (p : ℚ × ℚ) : ℚ × ℚ :=
  (M.1.1 * p.1 + M.1.2.1 * p.2 + M.1.2.2,
   M.2.1 * p.1 + M.2.2.1 * p.2 + M.2.2.2)

/-- Rotation of a point about a center by the angle with cosine `c` and
sine `s`, in the standard mathematical (counter-clockwise) convention. -/
def rotateAbout (c s : ℚ) (ctr p : ℚ × ℚ) : ℚ × ℚ :=
  (ctr.1 + (c * (p.1 - ctr.1) - s * (p.2 - ctr.2)),
   ctr.2 + (s * (p.1 - ctr.1) + c * (p.2 - ctr.2)))

/-! ## The Flask upload handler (`web/app.py`) -/

/-- JSON leaf values occurring in the handler's responses. -/
inductive Json where
  | bool (b : Bool)
  | str (s : String)
deriving DecidableEq

/-- A JSON object as an association list, the argument of `jsonify`. -/
abbrev JsonObj := List (String × Json)

/-- An HTTP response: JSON body plus status code. -/
structure HttpResponse where
  body : JsonObj
  status : Nat
deriving DecidableEq

/-- `app.config['ALLOWED_EXTENSIONS']`. -/
def ALLOWED_EXTENSIONS : List String := ["png", "jpg", "jpeg", "gif", "bmp"]

/-- `filename.rsplit('.', 1)[1]`: the substring after the last dot. -/
def lastExt (filename : String) : String :=
  (filename.splitOn ".").getLastD ""

/-- `allowed_file` from `web/app.py`:
`'.' in filename and filename.rsplit('.', 1)[1].lower() in ALLOWED_EXTENSIONS`. -/
def allowed_file (filename : String) : Bool :=
  filename.contains '.' && ALLOWED_EXTENSIONS.contains (lastExt filename).toLower

/-- The multipart request seen by the handler: form field name mapped to
the uploaded file's client-supplied filename. -/
structure UploadRequest where
  files : List (String × String)

/-- What the handler did: the response it returned and the paths whose
deletion it attempted (each `os.remove` call site, all of them wrapped
so that a cleanup failure is swallowed). -/
structure HandlerResult where
  response : HttpResponse
  deletionsAttempted : List String

/-- The `/process` handler `process_image` from `web/app.py`.  `uid`
models `uuid.uuid4()`; `outcome` models the fallible body of the `try`
block (saving the upload, running `preprocess_image` and
`model.predict`), producing either the LaTeX string or the message of
the raised exception. -/
def process_image (req : UploadRequest) (uid : String)
    (outcome : Except String String) : HandlerResult :=
  match req.files.lookup "image" with
  | none => ⟨⟨[("error", .str "No image file provided")], 400⟩, []⟩
  | some filename =>
    if filename = "" then
      ⟨⟨[("error", .str "No file selected")], 400⟩, []⟩
    else if !allowed_file filename then
      ⟨⟨[("error", .str "Invalid file type. Allowed: PNG, JPG, JPEG, GIF, BMP")], 400⟩, []⟩
    else
      let file_ext := (lastExt filename).toLower
      let input_path := "uploads/input_" ++ uid ++ "." ++ file_ext
      let preprocessed_path := "uploads/preprocessed_" ++ uid ++ ".png"
      match outcome with
      | .ok latex =>
        ⟨⟨[("success", .bool true), ("latex", .str latex)], 200⟩,
         [input_path, preprocessed_path]⟩
      | .error e =>
        ⟨⟨[("success", .bool false), ("error", .str e)], 500⟩,
         [input_path, preprocessed_path]⟩

/-- Modelled from the claim's words (C6), for comparison with the
handler: a body of shape `\x7bsuccess: bool, latex?: string,
error?: string\x7d`, i.e. a mandatory boolean `success` and optional
string `latex` and `error` fields, nothing else. -/
def claimedShape (o : JsonObj) : Bool :=
  (match o.lookup "success" with
   | some (.bool _) => true
   | _ => false)
  && o.all (fun kv =>
      kv.1 == "success"
      || (kv.1 == "latex" && (match kv.2 with | .str _ => true | _ => false))
      || (kv.1 == "error" && (match kv.2 with | .str _ => true | _ => false)))

/-! ## Concrete backend instances (witness material)

The `CV` structure abstracts the external OpenCV library; the instances
below are concrete members of that interface used to evaluate the
pipeline on explicit inputs.  `areaResize` implements the behavior
`cv2.resize(..., interpolation=INTER_AREA)` is documented to have for
integer decimation factors — each destination pixel is the rounded mean
of its source block — which is the behavior the C4 refutation turns on;
the remaining operations are simple representatives satisfying the
stated contracts. -/

/-- Global threshold at 128 to the values 0 and 255 (a representative of
`cv2.threshold(..., THRESH_BINARY + THRESH_OTSU)`, which always produces
a two-valued image). -/
def thresh128 (img : GrayImage) : GrayImage :=
  ⟨img.width, img.height, fun n => if img.data n < 128 then 0 else 255⟩

/-- Inverse global threshold at 128 (representative of
`THRESH_BINARY_INV + THRESH_OTSU`). -/
def thresh128Inv (img : GrayImage) : GrayImage :=
  ⟨img.width, img.height, fun n => if img.data n < 128 then 255 else 0⟩

/-- BGR to grayscale by the standard luminance weights
0.114 B + 0.587 G + 0.299 R, in fixed-point with rounding. -/
def lumaGray (img : ColorImage) : GrayImage :=
  ⟨img.width, img.height, fun n =>
    let p := img.data n
    (114 * p.1 + 587 * p.2.1 + 299 * p.2.2 + 500) / 1000⟩

/-- Exact area-average downsampling: when the source dimensions are
integer multiples of the destination dimensions, each destination pixel
is the rounded mean of the corresponding source block — the documented
`INTER_AREA` behavior for integer decimation. -/
def areaResize (img : GrayImage) (w h : Nat) : GrayImage :=
  let kx := img.width / w
  let ky := img.height / h
  let k := kx * ky
  ⟨w, h, fun n =>
    let x := n % w
    let y := n / w
    let s := ((List.range ky).map (fun dy =>
      ((List.range kx).map (fun dx =>
        img.data ((y * ky + dy) * img.width + (x * kx + dx)))).sum)).sum
    (s + k / 2) / k⟩

/-- A concrete `CV` backend whose Hough detector returns the given
constant candidate list; blur and CLAHE are the identity (any
interface member serves for witnesses), thresholding is `thresh128`,
resizing is exact area averaging. -/
def cvConst (lines : Option (List (ℚ × ℚ))) : CV where
  cvtColorGray := lumaGray
  gaussianBlur3 := id
  clahe := id
  thresholdOtsuBinary := thresh128
  thresholdOtsuBinaryInv := thresh128Inv
  houghLines := fun _ => lines
  warpAffine := fun i _ _ d _ => ⟨d.1, d.2, i.data⟩
  resizeArea := areaResize
  warpAffine_width := fun _ _ _ _ _ => rfl
  warpAffine_height := fun _ _ _ _ _ => rfl
  resizeArea_width := fun _ _ _ => rfl
  resizeArea_height := fun _ _ _ => rfl
  thresholdOtsuBinary_binary := fun i n => by
    by_cases h : i.data n < 128 <;> simp [thresh128, h]

/-- Small constant witness images. -/
def wGray : GrayImage := ⟨4, 4, fun _ => 7⟩

/-- A small all-white 4×2 colour image. -/
def wColor : ColorImage := ⟨4, 2, fun _ => (255, 255, 255)⟩

/-- The C4 refutation input: a 1600×2 image, white in its first 2×2
pixel block, white in three of the four pixels of the second block, and
black elsewhere.  After Otsu binarization it is two-valued; area
decimation to width 800 then averages the mixed block to the
intermediate value 191. -/
def cexColor : ColorImage :=
  ⟨1600, 2, fun n =>
    let x := n % 1600
    let y := n / 1600
    let v := if x < 3 ∨ (x = 3 ∧ y = 0) then 255 else 0
    (v, v, v)⟩

/-- Filesystem with the C4 refutation input at a single path. -/
def cexRead : String → Option ColorImage :=
  fun p => if p = "whiteboard.jpg" then some cexColor else none

/-- The image the pipeline writes for the C4 refutation input. -/
def cexOut : GrayImage :=
  resizeStage (cvConst none) (deskew (cvConst none) (enhance (cvConst none) true cexColor))

/-- A filesystem for the loader refutation: one path holds bytes that do
not decode as an image, every other path is missing. -/
def cexFiles : String → Option (List Nat) :=
  fun p => if p = "garbage.png" then some [1, 2, 3] else none

/-- A decoder on which the garbage bytes fail. -/
def cexDecode : List Nat → Option ColorImage := fun _ => none

/-! ## Helper lemmas -/

/-- The angle-collecting loop equals a map followed by a filter. -/
lemma collectAngles_eq (ls : List (ℚ × ℚ)) :
    collectAngles ls
      = (ls.map (fun l => l.2 - 90)).filter (fun a => decide (|a| < 45)) := by
  induction ls with
  | nil => rfl
  | cons l rest ih =>
    by_cases h : |l.2 - 90| < 45 <;>
      simp [collectAngles, List.filter_cons, h, ih]

/-- The deskew stage expressed through the skew estimate it computes. -/
lemma deskew_eq (cv : CV) (img : GrayImage) :
    deskew cv img =
      match skewEstimate (cv.houghLines (cv.thresholdOtsuBinaryInv img)) with
      | none => img
      | some a =>
        if 1 < |a| then
          cv.warpAffine img (img.width / 2, img.height / 2) a (img.width, img.height)
            BorderMode.replicate
        else img := by
  simp only [deskew, skewEstimate]
  cases h : cv.houghLines (cv.thresholdOtsuBinaryInv img) with
  | none => rfl
  | some ls =>
    by_cases h0 : 0 < ls.length
    · by_cases he : collectAngles (ls.take 20) = [] <;>
        simp [h0, he]
    · simp [h0]

/-- A list with three pairwise distinct members has more than two
distinct values. -/
lemma not_two_valued_of_three (a b c : Nat) {l : List Nat}
    (ha : a ∈ l) (hb : b ∈ l) (hc : c ∈ l)
    (hab : a ≠ b) (hac : a ≠ c) (hbc : b ≠ c) :
    ¬ l.dedup.length ≤ 2 := by
  intro hlen
  have hsub : ({a, b, c} : Finset ℕ) ⊆ l.toFinset := by
    intro x hx
    simp only [Finset.mem_insert, Finset.mem_singleton] at hx
    rcases hx with rfl | rfl | rfl <;> simpa [List.mem_toFinset]
  have hcard : ({a, b, c} : Finset ℕ).card = 3 := by
    rw [Finset.card_insert_of_not_mem (by simp [hab, hac]),
      Finset.card_insert_of_not_mem (by simp [hbc]), Finset.card_singleton]
  have h3 : 3 ≤ l.toFinset.card := hcard ▸ Finset.card_le_card hsub
  have hde : l.toFinset.card = l.dedup.length := List.card_toFinset l
  omega

/-- A list whose members all lie in a two-element set has at most two
distinct values. -/
lemma two_valued_of_binary {l : List Nat}
    (h : ∀ v ∈ l, v = 0 ∨ v = 255) : l.dedup.length ≤ 2 := by
  have hsub : l.toFinset ⊆ ({0, 255} : Finset ℕ) := by
    intro x hx
    rcases h x (List.mem_toFinset.mp hx) with rfl | rfl <;> simp
  have hcard : l.toFinset.card ≤ 2 :=
    le_trans (Finset.card_le_card hsub) (by simp)
  have hde : l.toFinset.card = l.dedup.length := List.card_toFinset l
  omega

/-- The resize stage leaves an image that is not wider than the target
width untouched. -/
lemma resizeStage_eq_of_le (cv : CV) (img : GrayImage) (h : img.width ≤ 800) :
    resizeStage cv img = img := by
  simp only [resizeStage]
  rw [if_neg (by omega)]

/-! ## Claims -/

/-- The survivors of converting the first 20 candidates' angles to
rotation-from-horizontal and filtering them, with the code's strict
45° cutoff (`abs(angle) < 45`). -/
def filteredAngles (ls : List (ℚ × ℚ)) : List ℚ :=
  ((ls.take 20).map (fun l => l.2 - 90)).filter (fun a => decide (|a| < 45))

/-- Modelled from the claim's words (C1), for comparison with the code:
the same estimator but discarding only those converted angles whose
magnitude strictly exceeds 45°, so that an angle of exactly ±45°
survives and enters the mean. -/
def skewEstimateClaimed (lines : Option (List (ℚ × ℚ))) : Option ℚ :=
  match lines with
  | none => none
  | some ls =>
    if 0 < ls.length then
      let angles := ((ls.take 20).map (fun l => l.2 - 90)).filter (fun a => decide (|a| ≤ 45))
      if angles = [] then none
      else some (angles.sum / (angles.length : ℚ))
    else none

/-- C1 (amended): skew estimation takes at most the first 20 line
candidates in detection order, converts each candidate's angle to
`theta*180/pi - 90` degrees, keeps exactly those whose magnitude is
strictly below 45° (an angle of 45° or more is discarded), and returns
the arithmetic mean of the survivors, or no estimate when no lines were
detected or none survive; an absent estimate applies no correction. -/
theorem C1_skew_estimation (ls : List (ℚ × ℚ)) :
    (skewEstimate (some ls)
      = if filteredAngles ls = [] then none
        else some ((filteredAngles ls).sum / ((filteredAngles ls).length : ℚ)))
    ∧ skewEstimate none = none
    ∧ (∀ (cv : CV) (img : GrayImage),
        skewEstimate (cv.houghLines (cv.thresholdOtsuBinaryInv img)) = none →
        deskew cv img = img) := by
  refine ⟨?_, rfl, ?_⟩
  · simp only [skewEstimate, filteredAngles, collectAngles_eq]
    by_cases h0 : 0 < ls.length
    · simp [h0]
    · have hnil : ls = [] := by
        cases ls with
        | nil => rfl
        | cons a t => simp at h0
      subst hnil
      simp
  · intro cv img h
    rw [deskew_eq, h]

/-- C1 counterexample: a single detected line with angle θ = 135·π/180
(θ·180/π = 135°) converts to exactly 45°.  The code discards it
(`abs(angle) < 45` is false) and produces no estimate, while the claim's
filter (discard only above 45°) keeps it and produces the estimate
45°. -/
theorem C1_counterexample :
    skewEstimate (some [((5 : ℚ), (135 : ℚ))]) = none
    ∧ skewEstimateClaimed (some [((5 : ℚ), (135 : ℚ))]) = some 45 := by
  constructor
  · norm_num [skewEstimate, collectAngles]
  · norm_num [skewEstimateClaimed, List.filter]

/-- C1 witness: a line at 100° yields the estimate 10°, and with no
detected lines the deskew stage returns its input unchanged. -/
theorem C1_witness :
    skewEstimate (some [((0 : ℚ), (100 : ℚ))]) = some 10
    ∧ deskew (cvConst none) wGray = wGray := by
  constructor
  · rw [(C1_skew_estimation [((0 : ℚ), (100 : ℚ))]).1]
    norm_num [filteredAngles, List.filter]
  · exact (C1_skew_estimation []).2.2 (cvConst none) wGray rfl

/-- C2: an image not wider than the target width (800) passes the resize
stage pixel-identically, and the resize stage's output width never
exceeds max(inputWidth, targetWidth). -/
theorem C2_resize_never_upscales :
    (∀ (cv : CV) (img : GrayImage), img.width ≤ 800 → resizeStage cv img = img)
    ∧ ∀ (cv : CV) (img : GrayImage), (resizeStage cv img).width ≤ max img.width 800 := by
  refine ⟨fun cv img h => resizeStage_eq_of_le cv img h, fun cv img => ?_⟩
  simp only [resizeStage]
  by_cases h : 800 < img.width
  · rw [if_pos h, cv.resizeArea_width]
    exact le_max_right _ _
  · rw [if_neg h]
    exact le_max_left _ _

/-- C2 witness: a 4-pixel-wide image is returned unchanged, and its
output width is within the bound. -/
theorem C2_witness :
    resizeStage (cvConst none) wGray = wGray
    ∧ (resizeStage (cvConst none) wGray).width ≤ max wGray.width 800 :=
  ⟨C2_resize_never_upscales.1 (cvConst none) wGray (by decide),
   C2_resize_never_upscales.2 (cvConst none) wGray⟩

/-- C3: whenever the computed skew estimate has magnitude at most the
minimum-degrees threshold 1.0 — the exact boundary included — the deskew
stage returns the carried image unchanged. -/
theorem C3_skew_noop_threshold (cv : CV) (img : GrayImage) (a : ℚ)
    (h1 : skewEstimate (cv.houghLines (cv.thresholdOtsuBinaryInv img)) = some a)
    (h2 : |a| ≤ 1) :
    deskew cv img = img := by
  rw [deskew_eq, h1]
  exact if_neg (not_lt.mpr h2)

/-- C3 witness: a backend detecting one line at 91°, hence an estimate
of exactly 1.0° (the boundary), leaves the image untouched. -/
theorem C3_witness :
    deskew (cvConst (some [((0 : ℚ), (91 : ℚ))])) wGray = wGray :=
  C3_skew_noop_threshold (cvConst (some [((0 : ℚ), (91 : ℚ))])) wGray 1
    (by norm_num [cvConst, skewEstimate, collectAngles]) (by norm_num)

/-- C5 (amended): the loader raises the single error kind `ValueError`,
with message `Could not read image from <path>`, both when the path does
not exist and when the bytes cannot be decoded — `cv2.imread` returns
`None` in both cases and the code does not distinguish them — and once
an image is decoded the rest of the pipeline is total: no other error
originates inside `preprocess_image`. -/
theorem C5_loader_errors :
    (∀ (cv : CV) (read : String → Option ColorImage) (input_path output_path : String)
        (aggressive : Bool),
      read input_path = none →
      preprocess_image cv read input_path output_path aggressive
        = .error (.valueError ("Could not read image from " ++ input_path)))
    ∧ ∀ (cv : CV) (read : String → Option ColorImage) (input_path output_path : String)
        (aggressive : Bool) (img : ColorImage),
      read input_path = some img →
      preprocess_image cv read input_path output_path aggressive
        = .ok (resizeStage cv (deskew cv (enhance cv aggressive img)), output_path) := by
  constructor
  · intro cv read iP oP agg h
    simp only [preprocess_image, h]
  · intro cv read iP oP agg img h
    simp only [preprocess_image, h]

/-- C5 counterexample: with a filesystem holding undecodable bytes at
`garbage.png` and nothing at `missing.png`, the two failures carry the
same error kind — both are `ValueError` — refuting the claim that the
decode failure raises a distinct `DecodeError`. -/
theorem C5_counterexample :
    errKind (preprocess_image (cvConst none) (imread cexFiles cexDecode)
        "missing.png" "out.png" false)
      = errKind (preprocess_image (cvConst none) (imread cexFiles cexDecode)
        "garbage.png" "out.png" false)
    ∧ errKind (preprocess_image (cvConst none) (imread cexFiles cexDecode)
        "missing.png" "out.png" false) = some "ValueError" := by
  constructor <;> rfl

/-- C5 witness: the error equation at a concrete missing path, and a
successful run at a concrete decodable image. -/
theorem C5_witness :
    preprocess_image (cvConst none) (imread cexFiles cexDecode) "missing.png" "out.png" false
      = .error (.valueError ("Could not read image from " ++ "missing.png"))
    ∧ preprocess_image (cvConst none) (fun _ => some wColor) "in.png" "out.png" false
      = .ok (resizeStage (cvConst none)
          (deskew (cvConst none) (enhance (cvConst none) false wColor)), "out.png") :=
  ⟨C5_loader_errors.1 (cvConst none) (imread cexFiles cexDecode) "missing.png" "out.png"
      false rfl,
   C5_loader_errors.2 (cvConst none) (fun _ => some wColor) "in.png" "out.png"
      false wColor rfl⟩

/-- C7: whenever line detection on the transient binary proxy finds no
lines, the skew estimate is absent, the deskew stage passes the enhanced
image through unchanged, and the pipeline still completes successfully,
writing the resized enhanced image. -/
theorem C7_no_lines_graceful (cv : CV) (read : String → Option ColorImage)
    (input_path output_path : String) (aggressive : Bool) (img : ColorImage)
    (h1 : read input_path = some img)
    (h2 : cv.houghLines (cv.thresholdOtsuBinaryInv (enhance cv aggressive img)) = none) :
    skewEstimate (cv.houghLines (cv.thresholdOtsuBinaryInv (enhance cv aggressive img))) = none
    ∧ preprocess_image cv read input_path output_path aggressive
        = .ok (resizeStage cv (enhance cv aggressive img), output_path) := by
  have hskip : deskew cv (enhance cv aggressive img) = enhance cv aggressive img := by
    rw [deskew_eq, h2]
    rfl
  constructor
  · rw [h2]
    rfl
  · simp only [preprocess_image, h1]
    rw [hskip]

/-- C7 witness: a backend whose detector finds no lines on an all-white
image; the pipeline completes with the unrotated image. -/
theorem C7_witness :
    skewEstimate ((cvConst none).houghLines
        ((cvConst none).thresholdOtsuBinaryInv (enhance (cvConst none) false wColor))) = none
    ∧ preprocess_image (cvConst none) (fun _ => some wColor) "in.png" "out.png" false
        = .ok (resizeStage (cvConst none) (enhance (cvConst none) false wColor), "out.png") :=
  C7_no_lines_graceful (cvConst none) (fun _ => some wColor) "in.png" "out.png" false wColor
    rfl rfl

/-- C9: the deskew stage preserves the image dimensions: whether or not
a rotation is applied, its output has exactly the width and height of
its input (the source passes `(enhanced.shape[1], enhanced.shape[0])` as
the warp's destination size, so rotated content is clipped to the
original canvas). -/
theorem C9_deskew_preserves_dims (cv : CV) (img : GrayImage) :
    (deskew cv img).width = img.width ∧ (deskew cv img).height = img.height := by
  rw [deskew_eq]
  cases skewEstimate (cv.houghLines (cv.thresholdOtsuBinaryInv img)) with
  | none => exact ⟨rfl, rfl⟩
  | some a =>
    by_cases h : 1 < |a|
    · dsimp only
      rw [if_pos h]
      exact ⟨cv.warpAffine_width _ _ _ _ _, cv.warpAffine_height _ _ _ _ _⟩
    · dsimp only
      rw [if_neg h]
      exact ⟨rfl, rfl⟩

/-- C10: on every successful invocation, `preprocess_image` returns the
very `output_path` it was given. -/
theorem C10_returns_output_path (cv : CV) (read : String → Option ColorImage)
    (input_path output_path : String) (aggressive : Bool) (res : GrayImage × String)
    (h : preprocess_image cv read input_path output_path aggressive = .ok res) :
    res.2 = output_path := by
  simp only [preprocess_image] at h
  cases hr : read input_path with
  | none => rw [hr] at h; exact absurd h (by simp)
  | some img =>
    rw [hr] at h
    injection h with h'
    rw [← h']

/-- C10 witness: a concrete successful run returns its output path. -/
theorem C10_witness :
    ((resizeStage (cvConst none)
        (deskew (cvConst none) (enhance (cvConst none) false wColor)), "out.png")
      : GrayImage × String).2 = "out.png" :=
  C10_returns_output_path (cvConst none) (fun _ => some wColor) "in.png" "out.png" false _ rfl

/-- C8: when the estimate's magnitude exceeds the 1.0° threshold, the
deskew stage calls the affine warp with the integer image center
`(width // 2, height // 2)`, the estimate as the rotation angle, the
original size, and `BORDER_REPLICATE` — never a fixed border color.
Moreover `getRotationMatrix2D` with that angle builds exactly the affine
map that fixes the center and undoes a mathematical rotation by the
estimate about it, i.e. it rotates content by −estimate degrees. -/
theorem C8_rotation_call :
    (∀ (cv : CV) (img : GrayImage) (a : ℚ),
      skewEstimate (cv.houghLines (cv.thresholdOtsuBinaryInv img)) = some a →
      1 < |a| →
      deskew cv img
        = cv.warpAffine img (img.width / 2, img.height / 2) a (img.width, img.height)
            BorderMode.replicate)
    ∧ (∀ cx cy c s : ℚ,
        applyAffine (getRotationMatrix2D cx cy c s) (cx, cy) = (cx, cy))
    ∧ (∀ (cx cy c s : ℚ) (p : ℚ × ℚ), c ^ 2 + s ^ 2 = 1 →
        applyAffine (getRotationMatrix2D cx cy c s) (rotateAbout c s (cx, cy) p) = p) := by
  refine ⟨?_, ?_, ?_⟩
  · intro cv img a h1 h2
    rw [deskew_eq, h1]
    exact if_pos h2
  · intro cx cy c s
    simp only [applyAffine, getRotationMatrix2D, Prod.mk.injEq]
    constructor <;> ring
  · intro cx cy c s p h
    obtain ⟨p1, p2⟩ := p
    simp only [applyAffine, getRotationMatrix2D, rotateAbout, Prod.mk.injEq]
    constructor
    · linear_combination (p1 - cx) * h
    · linear_combination (p2 - cy) * h

/-- C8 witness: a backend detecting a single line at 95° gives the
estimate 5°, above the threshold, and the stage reduces to the warp call
with replicated borders; the matrix identity is instantiated at
cos = 3/5, sin = 4/5. -/
theorem C8_witness :
    deskew (cvConst (some [((0 : ℚ), (95 : ℚ))])) wGray
      = (cvConst (some [((0 : ℚ), (95 : ℚ))])).warpAffine wGray
          (wGray.width / 2, wGray.height / 2) 5 (wGray.width, wGray.height)
          BorderMode.replicate
    ∧ applyAffine (getRotationMatrix2D 10 20 (3 / 5) (4 / 5))
        (rotateAbout (3 / 5) (4 / 5) (10, 20) (7, 9)) = (7, 9) := by
  constructor
  · exact C8_rotation_call.1 (cvConst (some [((0 : ℚ), (95 : ℚ))])) wGray 5
      (by norm_num [cvConst, skewEstimate, collectAngles]) (by norm_num)
  · exact C8_rotation_call.2.2 10 20 (3 / 5) (4 / 5) (7, 9) (by norm_num)

/-- C6 (amended): every response of the `/process` handler is one of
three exact forms — a validation failure `\x7berror: string\x7d` (with
no `success` field) with status 400 and no deletion attempted (no
temporary file exists yet), a success body
`\x7bsuccess: true, latex: string\x7d` with status 200, or a processing
failure `\x7bsuccess: false, error: string\x7d` with status 500 — and in
both non-validation outcomes the handler attempts best-effort deletion
of exactly the temporary input and preprocessed file paths. -/
theorem C6_handler_responses (req : UploadRequest) (uid : String)
    (outcome : Except String String) :
    ((process_image req uid outcome).response.status = 400
        ∧ (∃ msg, (process_image req uid outcome).response.body = [("error", Json.str msg)])
        ∧ (process_image req uid outcome).deletionsAttempted = [])
    ∨ ((process_image req uid outcome).response.status = 200
        ∧ (∃ l, (process_image req uid outcome).response.body
            = [("success", Json.bool true), ("latex", Json.str l)])
        ∧ ∃ f, (process_image req uid outcome).deletionsAttempted
            = ["uploads/input_" ++ uid ++ "." ++ f, "uploads/preprocessed_" ++ uid ++ ".png"])
    ∨ ((process_image req uid outcome).response.status = 500
        ∧ (∃ e, (process_image req uid outcome).response.body
            = [("success", Json.bool false), ("error", Json.str e)])
        ∧ ∃ f, (process_image req uid outcome).deletionsAttempted
            = ["uploads/input_" ++ uid ++ "." ++ f,
               "uploads/preprocessed_" ++ uid ++ ".png"]) := by
  unfold process_image
  split
  · exact Or.inl ⟨rfl, ⟨_, rfl⟩, rfl⟩
  · split
    · exact Or.inl ⟨rfl, ⟨_, rfl⟩, rfl⟩
    · split
      · exact Or.inl ⟨rfl, ⟨_, rfl⟩, rfl⟩
      · split
        · exact Or.inr (Or.inl ⟨rfl, ⟨_, rfl⟩, ⟨_, rfl⟩⟩)
        · exact Or.inr (Or.inr ⟨rfl, ⟨_, rfl⟩, ⟨_, rfl⟩⟩)

/-- C6 counterexample: the response to a request with no `image` field
has body `\x7berror: ...\x7d` with no `success` key at all, so it does
not have the claimed shape `\x7bsuccess: bool, latex?: string,
error?: string\x7d` with its mandatory boolean `success`. -/
theorem C6_counterexample :
    claimedShape (process_image ⟨[]⟩ "uid-1" (.ok "E=mc^2")).response.body = false
    ∧ (process_image ⟨[]⟩ "uid-1" (.ok "E=mc^2")).response.status = 400 := by
  constructor <;> rfl

/-- C4 (amended): with the aggressive flag set, the carried image is
strictly binary immediately after the Otsu thresholding step (every
pixel is 0 or 255), and the final written output is strictly binary
whenever no resampling happens afterwards — that is, when the deskew
stage applies no rotation and the image is not wider than the 800px
target, so the thresholded image reaches the writer untouched.
Rotation or downscaling interpolate between the two values, so the
final output is not binary in general. -/
theorem C4_aggressive_binary :
    (∀ (cv : CV) (img : ColorImage) (n : Nat),
      (enhance cv true img).data n = 0 ∨ (enhance cv true img).data n = 255)
    ∧ ∀ (cv : CV) (read : String → Option ColorImage) (input_path output_path : String)
        (img : ColorImage),
      read input_path = some img →
      deskew cv (enhance cv true img) = enhance cv true img →
      (enhance cv true img).width ≤ 800 →
      preprocess_image cv read input_path output_path true
        = .ok (enhance cv true img, output_path)
      ∧ isBinary (enhance cv true img) := by
  have hbin : ∀ (cv : CV) (img : ColorImage) (n : Nat),
      (enhance cv true img).data n = 0 ∨ (enhance cv true img).data n = 255 := by
    intro cv img n
    simp only [enhance, if_true]
    exact cv.thresholdOtsuBinary_binary _ n
  refine ⟨hbin, ?_⟩
  intro cv read iP oP img h1 h2 h3
  constructor
  · simp only [preprocess_image, h1]
    rw [h2, resizeStage_eq_of_le cv _ h3]
  · unfold isBinary
    apply two_valued_of_binary
    intro v hv
    simp only [valuesOf, List.mem_map] at hv
    obtain ⟨i, _, rfl⟩ := hv
    exact hbin cv img i

/-- C4 witness: an aggressive run on a small all-white image, where no
rotation and no resize fire, produces a binary output. -/
theorem C4_witness :
    preprocess_image (cvConst none) (fun _ => some wColor) "in.png" "out.png" true
      = .ok (enhance (cvConst none) true wColor, "out.png")
    ∧ isBinary (enhance (cvConst none) true wColor) :=
  C4_aggressive_binary.2 (cvConst none) (fun _ => some wColor) "in.png" "out.png" wColor
    rfl rfl (by decide)

set_option maxRecDepth 100000 in
/-- C4 counterexample: on the 1600-wide input `cexColor`, the aggressive
pipeline binarizes and then shrinks by exact 2×2 area averaging, and the
written output contains the three distinct values 255, 191 and 0 — it is
not strictly binary, refuting the claim for this valid input. -/
theorem C4_counterexample :
    preprocess_image (cvConst none) cexRead "whiteboard.jpg" "out.png" true
      = .ok (cexOut, "out.png")
    ∧ ¬ isBinary cexOut := by
  constructor
  · rfl
  · unfold isBinary
    exact not_two_valued_of_three 255 191 0 (by decide) (by decide) (by decide)
      (by decide) (by decide) (by decide)
